import Mathlib

/-!
Formal model of `get_articles_to_csv.py`: a shallow embedding of the
script's pagination-and-retry engine, with theorems checking its
specification.

The embedding models Python/JSON values by the inductive type `JVal`,
Python truthiness by `pyTruthy`, and the fallible attribute accesses of
the script by `Option`-valued functions (`none` models a raised
`AttributeError`/`TypeError`).  Machine-level concerns do not arise: the
script manipulates unbounded Python integers and strings.  The retry
backoff, a Python float, only ever takes the values 1, 2, 4, 8, 16, 32
and 60, all exactly representable, so it is modelled by a natural
number.
-/

namespace GetArticles

/-- Python/JSON values as manipulated by the script.  Dictionaries are
association lists with distinct keys, in insertion order (Python dicts
preserve insertion order). -/
inductive JVal where
  | null
  | bool (b : Bool)
  | int (n : Int)
  | str (s : String)
  | list (items : List JVal)
  | dict (entries : List (String × JVal))

/-- Python truthiness: `None`, `False`, `0`, `""`, `[]` and `{}` are
falsy, everything else is truthy. -/
def pyTruthy : JVal → Bool
  | .null => false
  | .bool b => b
  | .int n => n != 0
  | .str s => !s.isEmpty
  | .list xs => !xs.isEmpty
  | .dict es => !es.isEmpty

/-- Python `a or b`: `a` if `a` is truthy, else `b`. -/
def pyOr (a b : JVal) : JVal :=
  if pyTruthy a then a else b

/-- Python `d.get(k)` on a dict given as an association list: the value
of the first binding of `k`, or `None` when `k` is absent. -/
def lookupD : List (String × JVal) → String → JVal
  | [], _ => .null
  | (k, v) :: es, key => if k = key then v else lookupD es key

/-- Python `obj.get(k)`: succeeds only when `obj` is a dict; on any
other value the attribute access raises (modelled by `none`). -/
def pyGet : JVal → String → Option JVal
  | .dict es, k => some (lookupD es k)
  | _, _ => none

/-- Python `isinstance(v, int)` together with `int(v)`: Python `bool` is
a subclass of `int`, with `True = 1` and `False = 0`. -/
def pyAsInt : JVal → Option Int
  | .int n => some n
  | .bool b => some (if b then 1 else 0)
  | _ => none

/-- Python iteration `for x in v`: lists yield their items, dicts yield
their keys, strings yield their one-character substrings; `None`,
numbers and booleans are not iterable (a raised `TypeError`, modelled
by `none`). -/
def pyIter : JVal → Option (List JVal)
  | .list xs => some xs
  | .dict es => some (es.map (fun e => .str e.1))
  | .str s => some (s.toList.map (fun c => .str c.toString))
  | _ => none

mutual
/-- Python `repr` of a value (scalars and containers; string escaping
inside containers is not refined further, as the script only ever
stringifies strings and numbers). -/
def pyRepr : JVal → String
  | .null => "None"
  | .bool b => if b then "True" else "False"
  | .int n => toString n
  | .str s => "'" ++ s ++ "'"
  | .list xs => "[" ++ String.intercalate ", " (pyReprList xs) ++ "]"
  | .dict es => "\x7b" ++ String.intercalate ", " (pyReprEntries es) ++ "\x7d"

/-- Helper for `pyRepr`: repr of the items of a list. -/
def pyReprList : List JVal → List String
  | [] => []
  | x :: xs => pyRepr x :: pyReprList xs

/-- Helper for `pyRepr`: repr of the entries of a dict. -/
def pyReprEntries : List (String × JVal) → List String
  | [] => []
  | e :: es => ("'" ++ e.1 ++ "': " ++ pyRepr e.2) :: pyReprEntries es
end

/-- Python `str(v)`: the value itself for strings, `repr` otherwise
(which coincides with `str` on the remaining shapes). -/
def pyStr : JVal → String
  | .str s => s
  | v => pyRepr v

/-- Truthiness of an `Optional[str]` argument: `None` and the empty
string are falsy. -/
def strTruthy : Option String → Bool
  | none => false
  | some s => !s.isEmpty

/-- Result of `compute_dates`: either an explicit override string
returned verbatim, or a computed calendar date.  Calendar dates are
modelled by their day number (an integer), so that `today - timedelta
(days = k)` is day subtraction; `day d` stands for the ISO rendering of
day `d`. -/
inductive DateOut where
  | lit (s : String)
  | day (d : Int)

/-- Model of `compute_dates(days, date_start, date_end)`.  The current
UTC date, read inside the function from the wall clock, is the explicit
parameter `today`.  If both override strings are truthy they are
returned verbatim; otherwise the window is `today - max(days, 1)` to
`today`. -/
def compute_dates (days : Int) (date_start date_end : Option String)
    (today : Int) : DateOut × DateOut :=
  if strTruthy date_start && strTruthy date_end then
    (.lit (date_start.getD ""), .lit (date_end.getD ""))
  else
    (.day (today - max days 1), .day today)

/-- One attempt's observation by `request_page`: either
`requests.RequestException` raised by `session.post`, or an HTTP
response with a status code, a body text, and `some` parsed JSON value
when the body parses (`none` models `resp.json()` raising
`ValueError`). -/
inductive HttpAttempt where
  | exc
  | resp (status : Nat) (text : String) (json : Option JVal)

/-- How a `request_page` call ends. -/
inductive FetchOutcome where
  | ok (data : JVal)
  | transportError
  | invalidJson
  | httpError (status : Nat) (text : String)
  | retriesExceeded

/-- The status codes the script retries on:
`resp.status_code in (429, 500, 502, 503, 504)`. -/
def retryable_status (s : Nat) : Prop :=
  s = 429 ∨ s = 500 ∨ s = 502 ∨ s = 503 ∨ s = 504

instance (s : Nat) : Decidable (retryable_status s) := by
  unfold retryable_status
  infer_instance

/-- The retry loop of `request_page`, one constructor case per loop
iteration.  `fuel` is the number of iterations `range(max_retries)` has
left, `attempt` the current index, `backoff` the current sleep duration
and `sleeps` the sleeps performed so far, in order.  Running out of
fuel is the loop ending, after which the final
`RuntimeError("Max retries exceeded")` is raised. -/
def request_page_go (responses : Nat → HttpAttempt) (max_retries : Nat) :
    Nat → Nat → Nat → List Nat → FetchOutcome × List Nat
  | 0, _, _, sleeps => (.retriesExceeded, sleeps)
  | fuel + 1, attempt, backoff, sleeps =>
    match responses attempt with
    | .exc =>
      if attempt = max_retries - 1 then (.transportError, sleeps)
      else
        request_page_go responses max_retries fuel (attempt + 1)
          (min 60 (backoff * 2)) (sleeps ++ [backoff])
    | .resp status text json =>
      if status = 200 then
        match json with
        | some j => (.ok j, sleeps)
        | none => (.invalidJson, sleeps)
      else if retryable_status status then
        if attempt = max_retries - 1 then (.httpError status text, sleeps)
        else
          request_page_go responses max_retries fuel (attempt + 1)
            (min 60 (backoff * 2)) (sleeps ++ [backoff])
      else (.httpError status text, sleeps)

/-- Model of `request_page`.  The network is abstracted by `responses`,
giving for each attempt index what `session.post` produces on that
attempt; the session, endpoint, payload and API key do not affect the
control flow and are omitted.  The backoff starts at 1 and the outcome
is paired with the list of sleep durations performed. -/
def request_page (responses : Nat → HttpAttempt) (max_retries : Nat) :
    FetchOutcome × List Nat :=
  request_page_go responses max_retries max_retries 0 1 []

/-- Model of the inner function `normalize_label(item)` of
`extract_tags`, with the enclosing `lang` made an explicit first
parameter. -/
def normalize_label (lang : String) (item : JVal) : String :=
  match item with
  | .str s => s
  | .dict es =>
    let label_container := pyOr (lookupD es "label") (.dict [])
    let fromDict : Option String :=
      match label_container with
      | .dict les =>
        let label := pyOr (lookupD les lang) (lookupD les "eng")
        let label :=
          if (!pyTruthy label) && pyTruthy (JVal.dict les) then
            match les with
            | [] => JVal.null
            | e :: _ => e.2
          else label
        if pyTruthy label then some (pyStr label) else none
      | _ => none
    match fromDict with
    | some s => s
    | none =>
      if pyTruthy (lookupD es "uri") then pyStr (lookupD es "uri")
      else
        match lookupD es "label" with
        | .str s => if s.isEmpty then "" else s
        | _ => ""
  | _ => ""

/-- The label-resolution order as the specification words it: a bare
string is returned unchanged; a mapping-valued label field is resolved
by the preferred language, then English, then the first value of a
non-empty mapping; failing that a usable uri field, then a bare-string
label field; otherwise the empty string. -/
def normalize_label_spec (lang : String) (item : JVal) : String :=
  match item with
  | .str s => s
  | .dict es =>
    let fromMapping : Option String :=
      match lookupD es "label" with
      | .dict les =>
        if pyTruthy (lookupD les lang) then some (pyStr (lookupD les lang))
        else if pyTruthy (lookupD les "eng") then
          some (pyStr (lookupD les "eng"))
        else
          match les with
          | e :: _ => if pyTruthy e.2 then some (pyStr e.2) else none
          | [] => none
      | _ => none
    match fromMapping with
    | some s => s
    | none =>
      if pyTruthy (lookupD es "uri") then pyStr (lookupD es "uri")
      else
        match lookupD es "label" with
        | .str s => s
        | _ => ""
  | _ => ""

/-- One step of the tag-accumulation loops of `extract_tags`: append
the normalized label when it is truthy. -/
def appendLabel (lang : String) (tags : List String) (item : JVal) :
    List String :=
  let label := normalize_label lang item
  if label.isEmpty then tags else tags ++ [label]

/-- Model of `extract_tags(article, lang)`: iterate the concepts, then
the categories, appending each truthy normalized label.  `none` models
the crash when `article` is not a dict or a truthy concepts or
categories field is not iterable. -/
def extract_tags (article : JVal) (lang : String) : Option (List String) :=
  match article with
  | .dict es =>
    match pyIter (pyOr (lookupD es "concepts") (.list [])) with
    | none => none
    | some concepts =>
      let tags := concepts.foldl (appendLabel lang) []
      match pyIter (pyOr (lookupD es "categories") (.list [])) with
      | none => none
      | some categories => some (categories.foldl (appendLabel lang) tags)
  | _ => none

/-- Ceiling integer division: `math.ceil(t / c)` for `0 < c`, the
ceiling of the exact rational quotient (theorem `ceil_div_eq_ceil`
below; the float quotient has the same ceiling for the magnitudes the
API can return). -/
def ceil_div (t c : Int) : Int := -((-t) / c)

/-- The `total_pages` computation of `main` (lines 288 to 291):
`articles_section.get("totalResults")` when `articles_section` is a
dict, then `math.ceil(total_results / articles_count)` when that value
is an `int` and the page size is positive; `none` is Python `None`,
meaning the signal is unused. -/
def compute_total_pages (articles_section : JVal) (articles_count : Int) :
    Option Int :=
  let total_results : JVal :=
    match articles_section with
    | .dict es => lookupD es "totalResults"
    | _ => .null
  match pyAsInt total_results with
  | some t =>
    if 0 < articles_count then some (ceil_div t articles_count) else none
  | none => none

/-- The configuration fields of `args` that the pagination loop reads. -/
structure Config where
  lang : String
  articles_count : Int
  max_pages : Int

/-- The five CSV cells written for one article (lines 279 to 284):
each field defaulted to `""` when falsy, tags joined with `"; "`.
`none` models a crash (non-dict article, or a truthy non-dict `source`
field, or `extract_tags` crashing). -/
def buildRow (lang : String) (article : JVal) : Option (List String) := do
  let title ← pyGet article "title"
  let url ← pyGet article "url"
  let src ← pyGet article "source"
  let srcTitle ← pyGet (pyOr src (.dict [])) "title"
  let body ← pyGet article "body"
  let tags ← extract_tags article lang
  some [pyStr (pyOr title (.str "")), pyStr (pyOr url (.str "")),
    pyStr (pyOr srcTitle (.str "")), pyStr (pyOr body (.str "")),
    String.intercalate "; " tags]

/-- Rows written by the `for article in results` loop, in order;
`none` when some article crashes row construction. -/
def processResults (lang : String) : List JVal → Option (List (List String))
  | [] => some []
  | a :: rest => do
    let r ← buildRow lang a
    let rs ← processResults lang rest
    some (r :: rs)

/-- What one iteration of the `while True` loop body does, given the
payload `data` returned by `request_page` for page number `page`. -/
inductive PageStep where
  | crash
  | halt (rows : List (List String))
  | next (rows : List (List String))

/-- `articles_section.get("results")` for a payload `data`, through
`data.get("articles") or {}` (lines 273 to 274); `none` models the
crash when a receiver is not a dict. -/
def resultsOf (data : JVal) : Option JVal :=
  (pyGet data "articles").bind (fun a => pyGet (pyOr a (.dict [])) "results")

/-- One iteration of the loop body of `main` (lines 269 to 300): read
the results list, break on an empty one, write one row per article,
then break when the `max_pages` cap or the computed total page count
has been reached; otherwise continue with the next page. -/
def pageStep (cfg : Config) (page : Nat) (data : JVal) : PageStep :=
  match pyGet data "articles" with
  | none => .crash
  | some a =>
    let articles_section := pyOr a (.dict [])
    match pyGet articles_section "results" with
    | none => .crash
    | some r =>
      let results := pyOr r (.list [])
      if pyTruthy results then
        match pyIter results with
        | none => .crash
        | some articles =>
          match processResults cfg.lang articles with
          | none => .crash
          | some rows =>
            let total_pages :=
              compute_total_pages articles_section cfg.articles_count
            if cfg.max_pages ≠ 0 ∧ (page : Int) ≥ cfg.max_pages then
              .halt rows
            else
              match total_pages with
              | some tp =>
                if tp ≠ 0 ∧ (page : Int) ≥ tp then .halt rows
                else .next rows
              | none => .next rows
      else .halt []

/-- State of the pagination loop: the page counter, the running row
count `total_rows`, and the data rows written so far.  `done` is the
state after `break`. -/
inductive LoopState where
  | running (page : Nat) (total_rows : Nat) (rows : List (List String))
  | done (total_rows : Nat) (rows : List (List String))

/-- One transition of the pagination loop; `none` models an uncaught
exception aborting the run.  A finished loop stays finished. -/
def loopStep (cfg : Config) (pages : Nat → JVal) : LoopState → Option LoopState
  | .done t r => some (.done t r)
  | .running page t r =>
    match pageStep cfg page (pages page) with
    | .crash => none
    | .halt rows => some (.done (t + rows.length) (r ++ rows))
    | .next rows => some (.running (page + 1) (t + rows.length) (r ++ rows))

/-- The loop after `n` iterations, started from page 1 with no rows
written, where `pages p` is the payload `request_page` returns for page
number `p`. -/
def runLoop (cfg : Config) (pages : Nat → JVal) : Nat → Option LoopState
  | 0 => some (.running 1 0 [])
  | n + 1 => (runLoop cfg pages n).bind (loopStep cfg pages)

/-- The loop terminates normally: some number of iterations reaches the
`done` state. -/
def LoopTerminates (cfg : Config) (pages : Nat → JVal) : Prop :=
  ∃ n t r, runLoop cfg pages n = some (.done t r)

/-- The header row written before the loop (line 267). -/
def headerRow : List String :=
  ["Headline", "Link URL", "Outlet", "Text", "Tags/keywords"]

/-- The CSV contents for a loop state: the header row followed by the
data rows. -/
def outputRows : LoopState → List (List String)
  | .running _ _ r => headerRow :: r
  | .done _ r => headerRow :: r

/-- A fixed article payload with only a title. -/
def articleA : JVal := .dict [("title", .str "A")]

/-- The row the sink receives for `articleA`. -/
def rowA : List String := ["A", "", "", "", ""]

/-- A page response with one article and no total-result count. -/
def pageEndless : JVal :=
  .dict [("articles", .dict [("results", .list [articleA])])]

/-- Configuration with page size 100 and `max_pages = 0` (unlimited). -/
def cfgUnlimited : Config := ⟨"eng", 100, 0⟩

/-- Configuration with page size 100 and the default `max_pages = 50`. -/
def cfgDefault : Config := ⟨"eng", 100, 50⟩

/-- A page response with one article and `totalResults = 437`. -/
def pageTotal437 : JVal :=
  .dict [("articles", .dict
    [("results", .list [.dict [("title", .str "T")]]),
     ("totalResults", .int 437)])]

/-- The row the sink receives for the `pageTotal437` article. -/
def rowT : List String := ["T", "", "", "", ""]

/-- A page response whose results list is empty. -/
def pageEmpty : JVal := .dict [("articles", .dict [("results", .list [])])]

/-! ### Helper lemmas -/

theorem ceil_div_eq_ceil (t c : Int) (hc : 0 < c) :
    ceil_div t c = ⌈(t : ℚ) / (c : ℚ)⌉ := by
  have hq := Int.ediv_add_emod (-t) c
  have hr0 := Int.emod_nonneg (-t) (ne_of_gt hc)
  have hrc := Int.emod_lt_of_pos (-t) hc
  have hcq : (0 : ℚ) < (c : ℚ) := by exact_mod_cast hc
  have hzc : ceil_div t c * c = t + (-t) % c := by
    simp only [ceil_div, neg_mul]
    linear_combination -hq
  symm
  rw [Int.ceil_eq_iff]
  constructor
  · rw [lt_div_iff₀ hcq]
    have hz : (ceil_div t c - 1) * c < t := by
      have h2 : (ceil_div t c - 1) * c = t + (-t) % c - c := by
        linear_combination hzc
      omega
    calc ((ceil_div t c : ℚ) - 1) * c = ((ceil_div t c - 1 : Int) : ℚ) * c := by
          push_cast; ring
      _ < t := by exact_mod_cast hz
  · rw [div_le_iff₀ hcq]
    have hz : t ≤ ceil_div t c * c := by omega
    exact_mod_cast hz

theorem request_page_go_success {responses : Nat → HttpAttempt}
    {mr fuel attempt backoff : Nat} {sleeps : List Nat} {body : String}
    {j : JVal} (hs : responses attempt = .resp 200 body (some j)) :
    request_page_go responses mr (fuel + 1) attempt backoff sleeps =
      (.ok j, sleeps) := by
  conv_lhs => unfold request_page_go
  rw [hs]
  simp

theorem request_page_go_retry_step {responses : Nat → HttpAttempt}
    {mr fuel attempt backoff : Nat} {sleeps : List Nat} {status : Nat}
    {text : String} {json : Option JVal}
    (hs : responses attempt = .resp status text json) (h200 : status ≠ 200)
    (hretry : retryable_status status) (hlast : attempt ≠ mr - 1) :
    request_page_go responses mr (fuel + 1) attempt backoff sleeps =
      request_page_go responses mr fuel (attempt + 1) (min 60 (backoff * 2))
        (sleeps ++ [backoff]) := by
  conv_lhs => unfold request_page_go
  rw [hs]
  simp [h200, hretry, hlast]

theorem request_page_go_last_retryable {responses : Nat → HttpAttempt}
    {mr fuel attempt backoff : Nat} {sleeps : List Nat} {status : Nat}
    {text : String} {json : Option JVal}
    (hs : responses attempt = .resp status text json) (h200 : status ≠ 200)
    (hretry : retryable_status status) (hlast : attempt = mr - 1) :
    request_page_go responses mr (fuel + 1) attempt backoff sleeps =
      (.httpError status text, sleeps) := by
  conv_lhs => unfold request_page_go
  rw [hs]
  simp [h200, hretry, hlast]

theorem retryable_ne_200 {s : Nat} (h : retryable_status s) : s ≠ 200 := by
  rcases h with h | h | h | h | h <;> omega

theorem go_all_retryable (responses : Nat → HttpAttempt) (st : Nat → Nat)
    (tx : Nat → String) (js : Nat → Option JVal) (mr : Nat)
    (hresp : ∀ i, i < mr → responses i = .resp (st i) (tx i) (js i))
    (hretry : ∀ i, i < mr → retryable_status (st i)) :
    ∀ fuel attempt backoff sleeps, attempt + fuel = mr → 0 < fuel →
    (request_page_go responses mr fuel attempt backoff sleeps).1 =
      .httpError (st (mr - 1)) (tx (mr - 1)) := by
  intro fuel
  induction fuel with
  | zero => intro _ _ _ _ hf; omega
  | succ f ih =>
    intro attempt backoff sleeps hsum _
    have hia : attempt < mr := by omega
    have h200 : st attempt ≠ 200 := retryable_ne_200 (hretry attempt hia)
    by_cases hf : f = 0
    · subst hf
      have hlast : attempt = mr - 1 := by omega
      rw [request_page_go_last_retryable (hresp attempt hia) h200
        (hretry attempt hia) hlast]
      rw [hlast]
    · have hlast : attempt ≠ mr - 1 := by omega
      rw [request_page_go_retry_step (hresp attempt hia) h200
        (hretry attempt hia) hlast]
      exact ih (attempt + 1) _ _ (by omega) (by omega)

/-! ### Claim theorems -/

/-- C2: with the default budget of 5 attempts, HTTP 503 on attempts 1
through 4 and HTTP 200 with a parseable body on attempt 5 yield the
parsed payload, after exactly 4 backoff sleeps of durations 1, 2, 4
and 8 time units. -/
theorem C2_retry_then_success (responses : Nat → HttpAttempt)
    (t0 t1 t2 t3 body : String) (j0 j1 j2 j3 : Option JVal) (j : JVal)
    (h0 : responses 0 = .resp 503 t0 j0) (h1 : responses 1 = .resp 503 t1 j1)
    (h2 : responses 2 = .resp 503 t2 j2) (h3 : responses 3 = .resp 503 t3 j3)
    (h4 : responses 4 = .resp 200 body (some j)) :
    request_page responses 5 = (.ok j, [1, 2, 4, 8]) := by
  show request_page_go responses 5 (4 + 1) 0 1 [] = _
  rw [request_page_go_retry_step h0 (by decide) (by decide) (by decide)]
  rw [request_page_go_retry_step h1 (by decide) (by decide) (by decide)]
  rw [request_page_go_retry_step h2 (by decide) (by decide) (by decide)]
  rw [request_page_go_retry_step h3 (by decide) (by decide) (by decide)]
  rw [request_page_go_success h4]
  simp only [Prod.mk.injEq]
  exact ⟨trivial, by decide⟩

/-- Witness for C2 at a concrete response sequence. -/
theorem C2_retry_then_success_witness :
    request_page
      (fun n => if n < 4 then .resp 503 "busy" none
        else .resp 200 "body" (some .null)) 5 =
      (.ok .null, [1, 2, 4, 8]) :=
  C2_retry_then_success _ "busy" "busy" "busy" "busy" "body"
    none none none none .null rfl rfl rfl rfl rfl

/-- C3: when every one of the `max_retries` attempts receives a
retryable HTTP status (429, 500, 502, 503 or 504), the call fails on
the final attempt with an error carrying the last status code and the
last response body. -/
theorem C3_retries_exhausted (responses : Nat → HttpAttempt)
    (st : Nat → Nat) (tx : Nat → String) (js : Nat → Option JVal)
    (mr : Nat) (hmr : 0 < mr)
    (hresp : ∀ i, i < mr → responses i = .resp (st i) (tx i) (js i))
    (hretry : ∀ i, i < mr → retryable_status (st i)) :
    (request_page responses mr).1 = .httpError (st (mr - 1)) (tx (mr - 1)) :=
  go_all_retryable responses st tx js mr hresp hretry mr 0 1 []
    (by omega) hmr

/-- Witness for C3: five straight HTTP 503 responses. -/
theorem C3_retries_exhausted_witness :
    (request_page (fun _ => .resp 503 "overloaded" none) 5).1 =
      .httpError 503 "overloaded" :=
  C3_retries_exhausted (fun _ => .resp 503 "overloaded" none)
    (fun _ => 503) (fun _ => "overloaded") (fun _ => none) 5 (by decide)
    (fun _ _ => rfl) (fun _ _ => Or.inr (Or.inr (Or.inr (Or.inl rfl))))

/-- C4: at any point in the retry loop with attempts remaining, an HTTP
200 response with an unparseable body fails immediately with no retry
and no sleep, and so does any HTTP status outside 200 and the retryable
set, the latter failing with the status and body. -/
theorem C4_nonretryable_immediate (responses : Nat → HttpAttempt)
    (mr fuel attempt backoff : Nat) (sleeps : List Nat)
    (hfuel : 0 < fuel) :
    (∀ body, responses attempt = .resp 200 body none →
      request_page_go responses mr fuel attempt backoff sleeps =
        (.invalidJson, sleeps)) ∧
    (∀ s body j, s ≠ 200 → ¬ retryable_status s →
      responses attempt = .resp s body j →
      request_page_go responses mr fuel attempt backoff sleeps =
        (.httpError s body, sleeps)) := by
  obtain ⟨f, rfl⟩ : ∃ f, fuel = f + 1 := ⟨fuel - 1, by omega⟩
  constructor
  · intro body h
    conv_lhs => unfold request_page_go
    rw [h]
    simp
  · intro s body j h200 hnr h
    conv_lhs => unfold request_page_go
    rw [h]
    simp [h200, hnr]

/-- Witness for C4: a malformed 200 body and an HTTP 404, each on the
first of 5 attempts. -/
theorem C4_nonretryable_immediate_witness :
    request_page_go (fun _ => .resp 200 "bad" none) 5 5 0 1 [] =
      (.invalidJson, []) ∧
    request_page_go (fun _ => .resp 404 "not found" none) 5 5 0 1 [] =
      (.httpError 404 "not found", []) :=
  ⟨(C4_nonretryable_immediate (fun _ => .resp 200 "bad" none)
      5 5 0 1 [] (by decide)).1 "bad" rfl,
   (C4_nonretryable_immediate (fun _ => .resp 404 "not found" none)
      5 5 0 1 [] (by decide)).2 404 "not found" none (by decide)
      (by decide) rfl⟩

/-- C9: for every lookback of `days ≤ 0` with no explicit overrides,
the window spans exactly 1 day ending today (UTC): the value is
silently clamped by `max(days, 1)` and no error is raised. -/
theorem C9_lookback_clamped (days today : Int) (h : days ≤ 0) :
    compute_dates days none none today = (.day (today - 1), .day today) := by
  unfold compute_dates
  have hmax : max days 1 = 1 := max_eq_right (by omega)
  simp [strTruthy, hmax]

/-- Witness for C9 at days = -3. -/
theorem C9_lookback_clamped_witness :
    compute_dates (-3) none none 20000 = (.day (20000 - 1), .day 20000) :=
  C9_lookback_clamped (-3) 20000 (by decide)

/-- C10: when exactly one explicit date override is supplied (the
other absent or the empty string), the supplied value is ignored and
the lookback-derived window is returned. -/
theorem C10_single_override_ignored (days today : Int) (s : String)
    (other : Option String) (hother : strTruthy other = false) :
    compute_dates days (some s) other today =
      (.day (today - max days 1), .day today) ∧
    compute_dates days other (some s) today =
      (.day (today - max days 1), .day today) := by
  unfold compute_dates
  rw [hother]
  simp

/-- Witness for C10: a start date with an empty end date, and the
reverse. -/
theorem C10_single_override_ignored_witness :
    compute_dates 60 (some "2024-01-01") (some "") 100 =
      (.day (100 - max 60 1), .day 100) ∧
    compute_dates 60 (some "") (some "2024-01-01") 100 =
      (.day (100 - max 60 1), .day 100) :=
  C10_single_override_ignored 60 100 "2024-01-01" (some "") rfl

/-- C5: a page response carrying an integer `totalResults` with a
positive page size yields the total page count `ceil(totalResults /
articles_count)`; with `totalResults = 437` and page size 100 that
count is 5 and, `max_pages` being 0 (unlimited), the loop is still
running after 4 fetches and done after 5. -/
theorem C5_total_pages_bound :
    (∀ (es : List (String × JVal)) (t c : Int),
      lookupD es "totalResults" = .int t → 0 < c →
      compute_total_pages (.dict es) c = some ⌈(t : ℚ) / (c : ℚ)⌉) ∧
    compute_total_pages
      (.dict [("results", .list [.dict [("title", .str "T")]]),
        ("totalResults", .int 437)]) 100 = some 5 ∧
    runLoop cfgUnlimited (fun _ => pageTotal437) 4 =
      some (.running 5 4 [rowT, rowT, rowT, rowT]) ∧
    runLoop cfgUnlimited (fun _ => pageTotal437) 5 =
      some (.done 5 [rowT, rowT, rowT, rowT, rowT]) := by
  refine ⟨?_, rfl, rfl, rfl⟩
  intro es t c ht hc
  have hdef : compute_total_pages (.dict es) c =
      match pyAsInt (lookupD es "totalResults") with
      | some t => if 0 < c then some (ceil_div t c) else none
      | none => none := rfl
  rw [hdef, ht]
  simp [pyAsInt, if_pos hc, ceil_div_eq_ceil t c hc]

/-- Witness for C5 at totalResults 437 and page size 100. -/
theorem C5_total_pages_bound_witness :
    compute_total_pages (.dict [("totalResults", .int 437)]) 100 =
      some ⌈(437 : ℚ) / (100 : ℚ)⌉ :=
  C5_total_pages_bound.1 [("totalResults", .int 437)] 437 100 rfl
    (by decide)

theorem loopStep_running (cfg : Config) (pages : Nat → JVal)
    (page t : Nat) (r : List (List String)) :
    loopStep cfg pages (.running page t r) =
      match pageStep cfg page (pages page) with
      | .crash => none
      | .halt rows => some (.done (t + rows.length) (r ++ rows))
      | .next rows =>
        some (.running (page + 1) (t + rows.length) (r ++ rows)) := rfl

theorem pyTruthy_dict_cons (e : String × JVal) (rest : List (String × JVal)) :
    pyTruthy (.dict (e :: rest)) = true := rfl

theorem normalize_label_eq_spec (lang : String) (item : JVal) :
    normalize_label lang item = normalize_label_spec lang item := by
  cases item with
  | dict es =>
    simp only [normalize_label, normalize_label_spec]
    cases hl : lookupD es "label" with
    | null => simp [pyOr, pyTruthy, lookupD]
    | bool b => cases b <;> simp [pyOr, pyTruthy, lookupD]
    | int n => by_cases hn : n = 0 <;> simp [pyOr, pyTruthy, lookupD, hn]
    | str s =>
      by_cases hs : s.isEmpty = true
      · have hs0 : s = "" := (String.isEmpty_iff s).mp hs
        subst hs0
        have he : "".isEmpty = true := rfl
        simp [pyOr, pyTruthy, lookupD, he]
      · simp [pyOr, pyTruthy, lookupD, hs]
    | list xs => cases xs <;> simp [pyOr, pyTruthy, lookupD]
    | dict les =>
      cases les with
      | nil => simp [pyOr, pyTruthy, lookupD]
      | cons e rest =>
        by_cases h1 : pyTruthy (lookupD (e :: rest) lang) = true
        · simp [pyOr, pyTruthy_dict_cons, h1]
        · by_cases h2 : pyTruthy (lookupD (e :: rest) "eng") = true
          · simp [pyOr, pyTruthy_dict_cons, h1, h2]
          · by_cases h3 : pyTruthy e.2 = true <;>
              simp [pyOr, pyTruthy_dict_cons, h1, h2, h3]
  | null => rfl
  | bool b => rfl
  | int n => rfl
  | str s => rfl
  | list xs => rfl

theorem foldl_appendLabel (lang : String) (l : List JVal) :
    ∀ acc : List String,
    l.foldl (appendLabel lang) acc =
      acc ++ (l.map (normalize_label lang)).filter (fun s => !s.isEmpty) := by
  induction l with
  | nil => intro acc; simp
  | cons x xs ih =>
    intro acc
    simp only [List.foldl_cons, List.map_cons, List.filter_cons]
    rw [ih]
    unfold appendLabel
    by_cases h : (normalize_label lang x).isEmpty
    · simp [h]
    · simp [h]

theorem pageStep_empty (cfg : Config) (page : Nat) (data r : JVal)
    (h1 : resultsOf data = some r)
    (h2 : pyTruthy (pyOr r (.list [])) = false) :
    pageStep cfg page data = .halt [] := by
  unfold resultsOf at h1
  cases ha : pyGet data "articles" with
  | none => rw [ha] at h1; simp at h1
  | some a =>
    rw [ha] at h1
    simp only [Option.some_bind] at h1
    simp only [pageStep, ha]
    simp [h1, h2]

/-- C6: an empty results list on any page halts the loop immediately
with normal termination, no error and no new rows; on page 1 in
particular, the run finishes with zero data rows and the output is the
header row alone. -/
theorem C6_empty_results_halt :
    (∀ (cfg : Config) (pages : Nat → JVal) (page t : Nat)
      (rows : List (List String)) (r : JVal),
      resultsOf (pages page) = some r →
      pyTruthy (pyOr r (.list [])) = false →
      loopStep cfg pages (.running page t rows) = some (.done t rows)) ∧
    runLoop cfgDefault (fun _ => pageEmpty) 1 = some (.done 0 []) ∧
    outputRows (.done 0 []) = [headerRow] := by
  refine ⟨?_, rfl, rfl⟩
  intro cfg pages page t rows r h1 h2
  rw [loopStep_running, pageStep_empty cfg page (pages page) r h1 h2]
  simp

/-- Witness for C6: an empty first page under the default
configuration. -/
theorem C6_empty_results_halt_witness :
    loopStep cfgDefault (fun _ => pageEmpty) (.running 1 0 []) =
      some (.done 0 []) :=
  C6_empty_results_halt.1 cfgDefault (fun _ => pageEmpty) 1 0 []
    (.list []) rfl rfl

theorem runLoop_endless (n : Nat) :
    runLoop cfgUnlimited (fun _ => pageEndless) n =
      some (.running (n + 1) n (List.replicate n rowA)) := by
  induction n with
  | zero => rfl
  | succ n ih =>
    have hbind : runLoop cfgUnlimited (fun _ => pageEndless) (n + 1) =
        (runLoop cfgUnlimited (fun _ => pageEndless) n).bind
          (loopStep cfgUnlimited (fun _ => pageEndless)) := rfl
    rw [hbind, ih]
    show some (LoopState.running (n + 1 + 1) (n + 1)
      (List.replicate n rowA ++ [rowA])) = _
    rw [← List.replicate_succ']

/-- C1 counterexample: with the max-pages cap 0 (unlimited) and a
response stream whose every page has one article and no total-result
count, the loop never stops, so termination does not hold for every
sequence of page responses. -/
theorem C1_counterexample_endless :
    ¬ LoopTerminates cfgUnlimited (fun _ => pageEndless) := by
  rintro ⟨n, t, r, h⟩
  rw [runLoop_endless n] at h
  simp at h

theorem run_reaches (cfg : Config) (pages : Nat → JVal) :
    ∀ k, (∀ p, 1 ≤ p → p ≤ k → pageStep cfg p (pages p) ≠ .crash) →
    (∃ t r, runLoop cfg pages k = some (.done t r)) ∨
    (∃ t r, runLoop cfg pages k = some (.running (k + 1) t r)) := by
  intro k
  induction k with
  | zero => intro _; right; exact ⟨0, [], rfl⟩
  | succ k ih =>
    intro h
    have hbind : runLoop cfg pages (k + 1) =
        (runLoop cfg pages k).bind (loopStep cfg pages) := rfl
    rcases ih (fun p h1 h2 => h p h1 (Nat.le_succ_of_le h2)) with
      ⟨t, r, hd⟩ | ⟨t, r, hr⟩
    · left
      refine ⟨t, r, ?_⟩
      rw [hbind, hd]
      rfl
    · have hstep := h (k + 1) (by omega) (by omega)
      cases hps : pageStep cfg (k + 1) (pages (k + 1)) with
      | crash => exact absurd hps hstep
      | halt rows =>
        left
        refine ⟨t + rows.length, r ++ rows, ?_⟩
        rw [hbind, hr]
        show loopStep cfg pages (.running (k + 1) t r) = _
        rw [loopStep_running, hps]
      | next rows =>
        right
        refine ⟨t + rows.length, r ++ rows, ?_⟩
        rw [hbind, hr]
        show loopStep cfg pages (.running (k + 1) t r) = _
        rw [loopStep_running, hps]

/-- C1 (amended): termination via the empty-page backstop: whenever
some page N that the loop can reach (no earlier iteration crashes) has
an empty results list, the loop stops, even with the total-result
count absent and the max-pages cap 0 or inconsistent.  (As originally
stated, over every response sequence, the claim fails:
`C1_counterexample_endless`.) -/
theorem C1_empty_page_backstop (cfg : Config) (pages : Nat → JVal)
    (N : Nat) (hN : 1 ≤ N)
    (hok : ∀ p, 1 ≤ p → p < N → pageStep cfg p (pages p) ≠ .crash)
    (r : JVal) (hres : resultsOf (pages N) = some r)
    (hempty : pyTruthy (pyOr r (.list [])) = false) :
    LoopTerminates cfg pages := by
  obtain ⟨M, rfl⟩ : ∃ M, N = M + 1 := ⟨N - 1, by omega⟩
  rcases run_reaches cfg pages M (fun p h1 h2 => hok p h1 (by omega)) with
    ⟨t, r0, hd⟩ | ⟨t, r0, hr0⟩
  · exact ⟨M, t, r0, hd⟩
  · refine ⟨M + 1, t, r0, ?_⟩
    have hbind : runLoop cfg pages (M + 1) =
        (runLoop cfg pages M).bind (loopStep cfg pages) := rfl
    rw [hbind, hr0]
    show loopStep cfg pages (.running (M + 1) t r0) = _
    rw [loopStep_running, pageStep_empty cfg (M + 1) (pages (M + 1)) r hres hempty]
    simp

/-- C7: `normalize_label` resolves label-bearing entries by the
documented first-match order: bare strings unchanged; a mapping-valued
label field via the preferred language, then English, then the first
value of a non-empty mapping; then a usable uri field; then a
bare-string label field; otherwise the empty string.  Stated as
equality with the transcription `normalize_label_spec` of that order,
plus the concrete English-fallback example. -/
theorem C7_normalize_label_resolution :
    (∀ (lang : String) (item : JVal),
      normalize_label lang item = normalize_label_spec lang item) ∧
    normalize_label "fra"
      (.dict [("label", .dict [("eng", .str "Politics"),
        ("deu", .str "Politik")])]) = "Politics" :=
  ⟨normalize_label_eq_spec, rfl⟩

/-- C8: an article's tags are the normalized concept labels followed by
the normalized category labels, empty results dropped; the
Tags/keywords cell joins them with "; ", as on the two concrete
articles of the specification. -/
theorem C8_tags_order_and_join :
    (∀ (lang : String) (es : List (String × JVal)) (cs ks : List JVal),
      pyOr (lookupD es "concepts") (.list []) = .list cs →
      pyOr (lookupD es "categories") (.list []) = .list ks →
      extract_tags (.dict es) lang =
        some ((cs.map (normalize_label lang)).filter (fun s => !s.isEmpty)
          ++ (ks.map (normalize_label lang)).filter (fun s => !s.isEmpty))) ∧
    buildRow "eng" (.dict [("concepts", .list [.str "Economy"]),
      ("categories", .list [.str "Business"])]) =
      some ["", "", "", "", "Economy; Business"] ∧
    buildRow "eng" (.dict [("concepts", .list [.str "Markets"]),
      ("categories", .list [])]) =
      some ["", "", "", "", "Markets"] := by
  refine ⟨?_, rfl, rfl⟩
  intro lang es cs ks hc hk
  simp only [extract_tags, hc, hk, pyIter]
  rw [foldl_appendLabel, foldl_appendLabel]
  simp

/-- Witness for C8: the two articles of the specification example. -/
theorem C8_tags_order_and_join_witness :
    extract_tags (.dict [("concepts", .list [.str "Economy"]),
      ("categories", .list [.str "Business"])]) "eng" =
      some ((([JVal.str "Economy"].map (normalize_label "eng")).filter
          (fun s => !s.isEmpty))
        ++ (([JVal.str "Business"].map (normalize_label "eng")).filter
          (fun s => !s.isEmpty))) :=
  C8_tags_order_and_join.1 "eng"
    [("concepts", .list [.str "Economy"]),
     ("categories", .list [.str "Business"])]
    [.str "Economy"] [.str "Business"] rfl rfl

/-- Witness for C1: page 1 already empty under the unlimited
configuration. -/
theorem C1_empty_page_backstop_witness :
    LoopTerminates cfgUnlimited (fun _ => pageEmpty) :=
  C1_empty_page_backstop cfgUnlimited (fun _ => pageEmpty) 1
    (Nat.le_refl 1)
    (fun _ h1 h2 => absurd (Nat.lt_of_le_of_lt h1 h2) (Nat.lt_irrefl 1))
    (.list []) rfl rfl

end GetArticles
